import Mathlib

/-!
Verification of the vt-flutter-dependency-checker reconciliation engine.

The TypeScript sources (src/check.ts, src/utils/pubspec-utils.ts,
src/services/excel-report.service.ts) are embedded shallowly: strings are
`List Char` at the working level, JavaScript string primitives (`trim`,
`startsWith`, `includes`, `split`, regex fragments actually used by the code)
are modelled character by character, and the node-semver library calls
(`valid`, `gt`, `major`/`minor`/`patch`, `satisfies`) are modelled by an
executable semantic-version parser, comparator and range evaluator covering
the comparator fragment the checker exercises (`^`, `~`, `>=`, `>`, `<=`,
`<`, `=`, bare versions, `*`/`x` wildcards, `||` alternatives, and
node-semver's default prerelease-exclusion rule).
-/

namespace VTCheck

/-! ## JavaScript string primitives (character-list level) -/

/-- The whitespace class `\s` of JavaScript regular expressions restricted to
the ASCII range (space, tab, line feed, carriage return, vertical tab, form
feed); the checker's inputs are ASCII manifest text and version strings. -/
def isJsWS (c : Char) : Bool :=
  c = ' ' || c = '\t' || c = '\n' || c = '\r' || c = '\x0b' || c = '\x0c'

/-- JavaScript `String.prototype.trimStart`. -/
def jsTrimLeft (cs : List Char) : List Char := cs.dropWhile isJsWS

/-- JavaScript `String.prototype.trimEnd`. -/
def jsTrimRight (cs : List Char) : List Char :=
  (cs.reverse.dropWhile isJsWS).reverse

/-- JavaScript `String.prototype.trim`. -/
def jsTrim (cs : List Char) : List Char := jsTrimRight (jsTrimLeft cs)

/-- JavaScript `String.prototype.startsWith`: the second list occurs at the
head of the first. -/
def startsWithL : List Char → List Char → Bool
  | _, [] => true
  | [], _ :: _ => false
  | a :: as, b :: bs => a = b && startsWithL as bs

/-- JavaScript `String.prototype.includes`: the second list occurs
contiguously somewhere in the first. -/
def containsSubL : List Char → List Char → Bool
  | [], needle => needle.isEmpty
  | h :: t, needle => startsWithL (h :: t) needle || containsSubL t needle

/-- JavaScript `String.prototype.split` with a single-character separator:
`n` separators produce `n + 1` (possibly empty) parts. -/
def splitCharList (sep : Char) : List Char → List (List Char)
  | [] => [[]]
  | c :: cs =>
    if c = sep then [] :: splitCharList sep cs
    else
      match splitCharList sep cs with
      | [] => [[c]]
      | l :: ls => (c :: l) :: ls

/-- Tokeniser accumulating the current word reversed; splits on runs of
JavaScript whitespace, producing no empty tokens. -/
def wsTokensAux : List Char → List Char → List (List Char)
  | [], acc => if acc.isEmpty then [] else [acc.reverse]
  | c :: rest, acc =>
    if isJsWS c then
      if acc.isEmpty then wsTokensAux rest []
      else acc.reverse :: wsTokensAux rest []
    else wsTokensAux rest (c :: acc)

/-- Splitting on whitespace runs, as node-semver's range normalisation does
after trimming (`range.split(/\s+/)` on a trimmed string). -/
def wsTokens (cs : List Char) : List (List Char) := wsTokensAux cs []

/-- JavaScript `String.prototype.split('||')` as used by node-semver's range
parser: alternatives are separated by a literal double pipe. -/
def splitOnPipes : List Char → List (List Char)
  | [] => [[]]
  | '|' :: '|' :: rest => [] :: splitOnPipes rest
  | c :: rest =>
    match splitOnPipes rest with
    | [] => [[c]]
    | l :: ls => (c :: l) :: ls

/-- Numeric value of a digit run. -/
def digitsVal (ds : List Char) : Nat :=
  ds.foldl (fun acc c => acc * 10 + (c.toNat - '0'.toNat)) 0

/-! ## Semantic versions (model of the node-semver library core) -/

/-- A prerelease identifier: numeric identifiers compare numerically and
before alphanumeric ones, per the SemVer specification implemented by
node-semver. -/
inductive PreId where
  | num : Nat → PreId
  | str : List Char → PreId
deriving DecidableEq, Repr

/-- A parsed semantic version.  Build metadata is accepted by the parser and
discarded, as node-semver ignores it for comparison. -/
structure SemVer where
  major : Nat
  minor : Nat
  patch : Nat
  pre : List PreId
deriving DecidableEq, Repr

/-- Parse a main-version numeric component `0|[1-9]\d*` (node-semver forbids
leading zeros), returning the value and the rest of the input. -/
def parseNum (cs : List Char) : Option (Nat × List Char) :=
  let ds := cs.takeWhile Char.isDigit
  let rest := cs.dropWhile Char.isDigit
  if ds.isEmpty then none
  else if 1 < ds.length ∧ ds.head? = some '0' then none
  else some (digitsVal ds, rest)

/-- Characters allowed in prerelease/build identifiers: `[0-9A-Za-z-]`. -/
def isIdentChar (c : Char) : Bool := c.isAlphanum || c = '-'

/-- Parse one prerelease identifier: nonempty, alphanumeric-or-hyphen;
all-digit identifiers are numeric and must not carry leading zeros. -/
def parsePreId (cs : List Char) : Option PreId :=
  if cs.isEmpty then none
  else if cs.all Char.isDigit then
    if 1 < cs.length ∧ cs.head? = some '0' then none
    else some (.num (digitsVal cs))
  else if cs.all isIdentChar then some (.str cs)
  else none

/-- Parse a dot-separated prerelease identifier list. -/
def parsePreIds (cs : List Char) : Option (List PreId) :=
  (splitCharList '.' cs).mapM parsePreId

/-- Validity of a build-metadata section: dot-separated nonempty
alphanumeric-or-hyphen identifiers (leading zeros permitted). -/
def buildOk (cs : List Char) : Bool :=
  (splitCharList '.' cs).all fun p => !p.isEmpty && p.all isIdentChar

/-- Parse the `-prerelease` / `+build` tail of a version, returning the
prerelease identifiers (build metadata is validated then discarded). -/
def parseTail (cs : List Char) : Option (List PreId) :=
  match cs with
  | [] => some []
  | '-' :: r =>
    let preChars := r.takeWhile (fun c => c ≠ '+')
    let rest := r.dropWhile (fun c => c ≠ '+')
    match parsePreIds preChars with
    | none => none
    | some pre =>
      match rest with
      | [] => some pre
      | '+' :: b => if buildOk b then some pre else none
      | _ => none
  | '+' :: b => if buildOk b then some [] else none
  | _ => none

/-- Parse `v?MAJOR.MINOR.PATCH(-pre)?(+build)?`, the anchored FULL grammar of
node-semver's version regular expression. -/
def parseSemVerCore (cs : List Char) : Option SemVer :=
  let cs := match cs with | 'v' :: rest => rest | other => other
  match parseNum cs with
  | none => none
  | some (maj, r1) =>
    match r1 with
    | '.' :: r2 =>
      match parseNum r2 with
      | none => none
      | some (mnr, r3) =>
        match r3 with
        | '.' :: r4 =>
          match parseNum r4 with
          | none => none
          | some (pat, r5) =>
            match parseTail r5 with
            | none => none
            | some pre => some ⟨maj, mnr, pat, pre⟩
        | _ => none
    | _ => none

/-- `semver.valid` / the `SemVer` constructor: the version string is trimmed
and then matched against the anchored FULL grammar. -/
def parseSemVerStr (cs : List Char) : Option SemVer := parseSemVerCore (jsTrim cs)

/-- Three-way comparison on naturals. -/
def cmpN (a b : Nat) : Ordering :=
  if a < b then .lt else if b < a then .gt else .eq

/-- Lexicographic comparison of character lists by code point, as JavaScript
string comparison behaves on the ASCII identifiers at hand. -/
def cmpCharList : List Char → List Char → Ordering
  | [], [] => .eq
  | [], _ :: _ => .lt
  | _ :: _, [] => .gt
  | a :: as, b :: bs =>
    match cmpN a.toNat b.toNat with
    | .eq => cmpCharList as bs
    | o => o

/-- Comparison of prerelease identifiers: numeric before alphanumeric,
numeric by value, alphanumeric lexicographically. -/
def preIdCmp : PreId → PreId → Ordering
  | .num a, .num b => cmpN a b
  | .num _, .str _ => .lt
  | .str _, .num _ => .gt
  | .str a, .str b => cmpCharList a b

/-- Comparison of prerelease identifier lists: element-wise, a strict prefix
comparing below the longer list. -/
def preListCmp : List PreId → List PreId → Ordering
  | [], [] => .eq
  | [], _ :: _ => .lt
  | _ :: _, [] => .gt
  | a :: as, b :: bs =>
    match preIdCmp a b with
    | .eq => preListCmp as bs
    | o => o

/-- `semver.compare`: major, minor, patch numerically; at equal main
versions a release compares above any prerelease and prereleases compare by
their identifier lists. -/
def semverCmp (a b : SemVer) : Ordering :=
  match cmpN a.major b.major with
  | .eq =>
    match cmpN a.minor b.minor with
    | .eq =>
      match cmpN a.patch b.patch with
      | .eq =>
        match a.pre, b.pre with
        | [], [] => .eq
        | [], _ :: _ => .gt
        | _ :: _, [] => .lt
        | x :: xs, y :: ys => preListCmp (x :: xs) (y :: ys)
      | o => o
    | o => o
  | o => o

/-- `semver.gt`. -/
def semverGtB (a b : SemVer) : Bool := semverCmp a b = Ordering.gt

/-! ## Version ranges (model of node-semver `Range` / `satisfies`) -/

/-- A primitive comparison operator of a range comparator. -/
inductive CompOp where
  | ltOp | leOp | gtOp | geOp | eqOp
deriving DecidableEq, Repr

/-- One comparator of a range set: an operator applied to a version. -/
structure Comparator where
  op : CompOp
  ver : SemVer
deriving DecidableEq, Repr

/-- Upper bound of a caret range, per node-semver's desugaring:
`^1.2.3 -> <2.0.0-0`, `^0.2.3 -> <0.3.0-0`, `^0.0.3 -> <0.0.4-0`. -/
def caretUpper (v : SemVer) : SemVer :=
  if 0 < v.major then ⟨v.major + 1, 0, 0, [.num 0]⟩
  else if 0 < v.minor then ⟨0, v.minor + 1, 0, [.num 0]⟩
  else ⟨0, 0, v.patch + 1, [.num 0]⟩

/-- Upper bound of a tilde range: `~X.Y.Z -> <X.(Y+1).0-0`. -/
def tildeUpper (v : SemVer) : SemVer := ⟨v.major, v.minor + 1, 0, [.num 0]⟩

/-- Parse one whitespace-delimited comparator token into its primitive
comparators.  Covers the fragment the checker's constraints exercise: caret,
tilde, the five primitive operators, bare versions (equality) and the
`*`/`x` wildcards; node-semver's partial-version x-ranges and hyphen ranges
are outside the fragment and make the range invalid here, and an invalid
range makes `satisfies` false exactly as node-semver's catch-all does. -/
def parseComparatorToken (tok : List Char) : Option (List Comparator) :=
  match tok with
  | [] => some []
  | ['*'] => some []
  | ['x'] => some []
  | ['X'] => some []
  | '^' :: rest =>
    match parseSemVerCore rest with
    | some v => some [⟨.geOp, v⟩, ⟨.ltOp, caretUpper v⟩]
    | none => none
  | '~' :: rest =>
    match parseSemVerCore rest with
    | some v => some [⟨.geOp, v⟩, ⟨.ltOp, tildeUpper v⟩]
    | none => none
  | '>' :: '=' :: rest =>
    (parseSemVerCore rest).map fun v => [⟨.geOp, v⟩]
  | '<' :: '=' :: rest =>
    (parseSemVerCore rest).map fun v => [⟨.leOp, v⟩]
  | '>' :: rest =>
    (parseSemVerCore rest).map fun v => [⟨.gtOp, v⟩]
  | '<' :: rest =>
    (parseSemVerCore rest).map fun v => [⟨.ltOp, v⟩]
  | '=' :: rest =>
    (parseSemVerCore rest).map fun v => [⟨.eqOp, v⟩]
  | other =>
    (parseSemVerCore other).map fun v => [⟨.eqOp, v⟩]

/-- Parse a full range: `||`-separated alternatives, each a trimmed,
whitespace-separated conjunction of comparators.  `none` models the `Range`
constructor throwing on malformed input. -/
def parseRangeL (cs : List Char) : Option (List (List Comparator)) :=
  (splitOnPipes cs).mapM fun sub =>
    ((wsTokens (jsTrim sub)).mapM parseComparatorToken).map List.flatten

/-- Does a version pass one primitive comparator? -/
def compSat (v : SemVer) (c : Comparator) : Bool :=
  let o := semverCmp v c.ver
  match c.op with
  | .ltOp => o = .lt
  | .leOp => !(o = .gt)
  | .gtOp => o = .gt
  | .geOp => !(o = .lt)
  | .eqOp => o = .eq

/-- Does a version satisfy one comparator set?  All comparators must pass,
and — node-semver's default prerelease rule — a version carrying a
prerelease tag additionally requires some comparator whose version has a
prerelease tag on the same `[major, minor, patch]` tuple. -/
def setSat (v : SemVer) (cs : List Comparator) : Bool :=
  cs.all (compSat v) &&
    (if v.pre.isEmpty then true
     else cs.any fun c =>
       !c.ver.pre.isEmpty && c.ver.major = v.major &&
         c.ver.minor = v.minor && c.ver.patch = v.patch)

/-- `semver.satisfies(version, range)`: false when the range or the version
fails to parse, otherwise true when some alternative's comparator set is
satisfied. -/
def satisfiesL (version range : List Char) : Bool :=
  match parseRangeL range, parseSemVerStr version with
  | some sets, some v => sets.any (setSat v)
  | _, _ => false

/-! ## The divergence classifier (src/check.ts) -/

/-- The character class `[\^~>=<\s]` stripped from the front of a constraint
by `isUpdateAvailable` / `getVersionUpdateType`. -/
def isRangePrefixChar (c : Char) : Bool :=
  c = '^' || c = '~' || c = '>' || c = '=' || c = '<' || isJsWS c

/-- `currentVersion.replace(/^[\^~>=<\s]+/, '').split(/\s+/)[0]`: strip the
leading run of operator/whitespace characters, then take the first
whitespace-delimited token (after the strip the string cannot begin with
whitespace, so the first split element is the leading non-whitespace run). -/
def baseVersionOf (cs : List Char) : List Char :=
  (cs.dropWhile isRangePrefixChar).takeWhile fun c => !isJsWS c

/-- src/check.ts `isUpdateAvailable` (lines 220-231): when both the stripped
base version and the latest version are valid semantic versions, report an
update exactly when latest is strictly greater than base and latest does not
satisfy the original constraint expression; otherwise false.  The function
is total — the TypeScript try/catch has nothing left to catch since
`semver.satisfies` already absorbs malformed ranges. -/
def isUpdateAvailable (currentVersion latestVersion : String) : Bool :=
  match parseSemVerStr (baseVersionOf currentVersion.data),
        parseSemVerStr latestVersion.data with
  | some base, some latest =>
    semverGtB latest base && !satisfiesL latestVersion.data currentVersion.data
  | _, _ => false

/-- Severity tier of an update. -/
inductive UpdateType where
  | major | minor | patch
deriving DecidableEq, Repr

/-- src/check.ts `getVersionUpdateType` (lines 325-347): with the same base
stripping, `null` unless both versions are valid, else the first of
major/minor/patch whose component strictly increased, else `null`. -/
def getVersionUpdateType (currentVersion latestVersion : String) :
    Option UpdateType :=
  match parseSemVerStr (baseVersionOf currentVersion.data),
        parseSemVerStr latestVersion.data with
  | some current, some latest =>
    if current.major < latest.major then some .major
    else if current.minor < latest.minor then some .minor
    else if current.patch < latest.patch then some .patch
    else none
  | _, _ => none

/-! ## The runtime Version Extractor (getFlutterVersionFromPubspec)

The identical function appears in src/check.ts (lines 84-110) and
src/utils/pubspec-utils.ts (lines 47-73); one model serves both. -/

/-- The test `line.match(/^\s*\w+:/)`: optional whitespace, then a nonempty
run of word characters (`[A-Za-z0-9_]`), then a colon — at any indentation. -/
def lineKeyTest (l : List Char) : Bool :=
  let r := l.dropWhile isJsWS
  let w := r.takeWhile fun c => c.isAlphanum || c = '_'
  !w.isEmpty && (r.dropWhile fun c => c.isAlphanum || c = '_').head? = some ':'

/-- The regex `/(\d+\.\d+\.\d+)/` tried at one starting position: a maximal
nonempty digit run, a dot, a second run, a dot, a third maximal run.  (A
digit run followed by anything but a dot cannot match even after
backtracking, since a shorter run would leave a digit where the dot is
required, so maximal runs are faithful.) -/
def tripleAt (cs : List Char) : Option (List Char) :=
  let d1 := cs.takeWhile Char.isDigit
  let r1 := cs.dropWhile Char.isDigit
  if d1.isEmpty then none
  else
    match r1 with
    | '.' :: r2 =>
      let d2 := r2.takeWhile Char.isDigit
      let r3 := r2.dropWhile Char.isDigit
      if d2.isEmpty then none
      else
        match r3 with
        | '.' :: r4 =>
          let d3 := r4.takeWhile Char.isDigit
          if d3.isEmpty then none
          else some (d1 ++ '.' :: d2 ++ '.' :: d3)
        | _ => none
    | _ => none

/-- Leftmost match of `/(\d+\.\d+\.\d+)/`: the regex engine tries each
successive start position. -/
def findTripleL : List Char → Option (List Char)
  | [] => none
  | c :: rest =>
    match tripleAt (c :: rest) with
    | some v => some v
    | none => findTripleL rest

/-- The line loop of `getFlutterVersionFromPubspec`, carrying the
`inEnvironment` flag.  Per line: a line trimming to exactly `environment:`
sets the flag and continues; in scope, a line whose trimmed form starts with
`flutter:` has the key dropped, is trimmed, and yields the first numeric
triple if one exists; otherwise, in scope, a line matching `/^\s*\w+:/` that
does not contain `flutter:` breaks the loop (the whole scan returns null). -/
def scanPubspec : List (List Char) → Bool → Option (List Char)
  | [], _ => none
  | l :: rest, inEnv =>
    let trimmed := jsTrim l
    if trimmed = "environment:".data then scanPubspec rest true
    else if inEnv && startsWithL trimmed "flutter:".data then
      match findTripleL (jsTrim (trimmed.drop 8)) with
      | some v => some v
      | none =>
        if inEnv && lineKeyTest l && !containsSubL l "flutter:".data then none
        else scanPubspec rest inEnv
    else if inEnv && lineKeyTest l && !containsSubL l "flutter:".data then none
    else scanPubspec rest inEnv

/-- src/check.ts `getFlutterVersionFromPubspec`: split the manifest on
newlines and run the scan with the flag initially off. -/
def getFlutterVersionFromPubspec (pubspecContent : String) : Option String :=
  (scanPubspec (splitCharList '\n' pubspecContent.data) false).map
    fun cs => String.mk cs

/-! ## The Dependency Extractor (extractDependencies) -/

/-- The value attached to one dependency key of a parsed manifest map, after
the YAML library's dynamic decoding: a plain string, an object with an
optional `version` field, or any other shape (null, number, boolean). -/
inductive DepSpec where
  | str : String → DepSpec
  | obj : Option String → DepSpec
  | other : DepSpec
deriving DecidableEq, Repr

/-- A parsed manifest as `extractDependencies` consumes it: the two
dependency maps, each either absent/null (`none`) or a key-ordered
association list as `Object.entries` yields it (JavaScript object keys are
unique within one map). -/
structure Pubspec where
  dependencies : Option (List (String × DepSpec))
  dev_dependencies : Option (List (String × DepSpec))
deriving DecidableEq, Repr

/-- One extracted declaration. -/
structure Dep where
  name : String
  version : String
deriving DecidableEq, Repr

/-- The per-entry version computation: a string spec verbatim; an object
spec's `version` field with JavaScript falsiness (`spec.version || 'any'`,
so a missing or empty string becomes `any`); any other shape `any`. -/
def depVersion : DepSpec → String
  | .str s => s
  | .obj v =>
    match v with
    | some s => if s = "" then "any" else s
    | none => "any"
  | .other => "any"

/-- One map's pass of the extraction loop: skip the runtime's own package
identifiers, apply the version computation with the final
`version || 'any'` falsiness guard, keep entry order. -/
def extractFrom (entries : List (String × DepSpec)) : List Dep :=
  entries.filterMap fun e =>
    if e.1 = "flutter" ∨ e.1 = "flutter_test" then none
    else some ⟨e.1, let v := depVersion e.2; if v = "" then "any" else v⟩

/-- src/check.ts `extractDependencies` (lines 141-180): a null manifest
yields the empty list; otherwise the primary map's declarations, followed —
when `includeDevDeps` — by the development map's declarations, concatenated
with no deduplication. -/
def extractDependencies (pubspec : Option Pubspec) (includeDevDeps : Bool) :
    List Dep :=
  match pubspec with
  | none => []
  | some p =>
    (match p.dependencies with
     | some es => extractFrom es
     | none => []) ++
    (if includeDevDeps then
       match p.dev_dependencies with
       | some es => extractFrom es
       | none => []
     else [])

/-! ## The Check Aggregator (checkRepository, src/check.ts lines 236-320)

The network collaborators are passed in as explicit outcomes: the manifest
fetch as an `Except` (the raised message or the content), the YAML parse as
a function to `Option` (the library returns null on empty input and its
exceptions land in the same enclosing catch, so both failure shapes are
`none`), and the registry resolver as a per-package `Except`. -/

/-- A fleet member from the configuration file. -/
structure Repository where
  name : String
  description : Option String
  url : String
deriving DecidableEq, Repr

/-- The runtime divergence record. -/
structure FlutterVersion where
  current : String
  latest : String
  updateAvailable : Bool
deriving DecidableEq, Repr

/-- One package's divergence record. -/
structure PackageInfo where
  name : String
  current : String
  latest : String
  updateAvailable : Bool
deriving DecidableEq, Repr

/-- The per-repository result. -/
structure CheckResult where
  repository : Repository
  flutter : FlutterVersion
  packages : List PackageInfo
  error : Option String
deriving DecidableEq, Repr

/-- The loop body of the resolving phase for one declaration: skip it when
its version is falsy or `any`, or contains a `git:`/`path:` marker
(`dep.version` is always a string here, so the `typeof` guard holds);
otherwise resolve, and on a resolver failure record
`{latest: 'N/A', updateAvailable: false}` instead of aborting. -/
def processDep (resolve : String → Except String String) (dep : Dep) :
    Option PackageInfo :=
  if dep.version = "" || dep.version = "any" then none
  else if containsSubL dep.version.data "git:".data ||
          containsSubL dep.version.data "path:".data then none
  else
    match resolve dep.name with
    | .ok latest => some ⟨dep.name, dep.version, latest, isUpdateAvailable dep.version latest⟩
    | .error _ => some ⟨dep.name, dep.version, "N/A", false⟩

/-- The skip guard of the resolving loop, for stating that every
non-skipped declaration yields exactly one package entry. -/
def isSkippedDep (dep : Dep) : Bool :=
  (dep.version = "" || dep.version = "any") ||
    (containsSubL dep.version.data "git:".data ||
      containsSubL dep.version.data "path:".data)

/-- src/check.ts `checkRepository`: a fetch error is caught by the outer
handler and becomes a failed result; a null YAML parse throws
`Failed to parse pubspec.yaml: result is null` into the same handler; on a
parsed manifest the runtime pin is the extracted triple or — JavaScript
`||` — the latest runtime version, with `updateAvailable` the strict string
inequality `currentFlutter !== latestFlutter`, and the dependency list
(always including dev dependencies: the call passes `true`) is resolved
entry by entry. -/
def checkRepository (repository : Repository) (latestFlutter : String)
    (fetch : Except String String) (parseYaml : String → Option Pubspec)
    (resolve : String → Except String String) : CheckResult :=
  match fetch with
  | .error e => ⟨repository, ⟨"unknown", latestFlutter, false⟩, [], some e⟩
  | .ok pubspecContent =>
    match parseYaml pubspecContent with
    | none =>
      ⟨repository, ⟨"unknown", latestFlutter, false⟩, [],
        some "Failed to parse pubspec.yaml: result is null"⟩
    | some pubspec =>
      let currentFlutter :=
        match getFlutterVersionFromPubspec pubspecContent with
        | some v => if v = "" then latestFlutter else v
        | none => latestFlutter
      let flutter : FlutterVersion :=
        ⟨currentFlutter, latestFlutter, decide (currentFlutter ≠ latestFlutter)⟩
      let dependencies := extractDependencies (some pubspec) true
      ⟨repository, flutter, dependencies.filterMap (processDep resolve), none⟩

/-! ## The summary sheet (excel-report.service.ts, createSummarySheet) -/

/-- A spreadsheet cell value as `worksheet.addRow` receives it: the summary
row mixes strings and numbers. -/
inductive CellVal where
  | str : String → CellVal
  | num : Nat → CellVal
deriving DecidableEq, Repr

/-- One summary-sheet data row. -/
structure SummaryRow where
  repository : CellVal
  flutterCurrent : CellVal
  flutterLatest : CellVal
  flutterUpdate : CellVal
  outdatedCount : CellVal
  totalCount : CellVal
  status : CellVal
deriving DecidableEq, Repr

/-- The loop body of `createSummarySheet` (lines 117-145) for one result:
an errored result renders the error row with status `エラー`; otherwise the
outdated count is the number of packages flagged with an update, and the
status cell is `要更新` when the runtime is divergent or that count is
positive, else `最新`. -/
def summaryRowOf (result : CheckResult) : SummaryRow :=
  match result.error with
  | some _ =>
    ⟨.str result.repository.name, .str "エラー", .str "", .str "",
      .str "", .str "", .str "エラー"⟩
  | none =>
    let outdatedCount := (result.packages.filter fun p => p.updateAvailable).length
    let totalCount := result.packages.length
    let hasFlutterUpdate := result.flutter.updateAvailable
    ⟨.str result.repository.name, .str result.flutter.current,
      .str result.flutter.latest,
      .str (if hasFlutterUpdate then "要更新" else "最新"),
      .num outdatedCount, .num totalCount,
      .str (if hasFlutterUpdate || 0 < outdatedCount then "要更新" else "最新")⟩

/-! ## The upload protocol client (sendSlackNotification, src/check.ts
lines 570-633)

The primary notification is posted by `chat.postMessage` before the upload
block; the three upload phases run inside one try whose catch only logs.
The collaborator responses are passed in as explicit outcomes. -/

/-- Response of `files.getUploadURLExternal`. -/
structure UploadURLResponse where
  ok : Bool
  upload_url : Option String
  file_id : Option String
  error : Option String
deriving DecidableEq, Repr

/-- Response of `files.completeUploadExternal`. -/
structure CompleteResponse where
  ok : Bool
  error : Option String
deriving DecidableEq, Repr

/-- The collaborator outcomes the upload block consumes: the request-phase
response, the transfer-phase (`axios.put`) outcome, and the
completion-phase response. -/
structure UploadEnv where
  uploadURLResp : UploadURLResponse
  putResult : Except String Unit
  completeResp : CompleteResponse
deriving Repr

/-- JavaScript falsiness of an optional string field: absent or empty. -/
def optFalsy : Option String → Bool
  | none => true
  | some s => s = ""

/-- JavaScript `a || b` for an optional string field against a default. -/
def orDefault (o : Option String) (d : String) : String :=
  match o with
  | some s => if s = "" then d else s
  | none => d

/-- The body of the upload try-block: phase 1 throws when the response is
not ok or the upload URL or file id is missing; phase 2 rethrows a transfer
error; phase 3 throws when the completion response is not ok. -/
def runUploadPhases (env : UploadEnv) : Except String Unit :=
  if !env.uploadURLResp.ok || optFalsy env.uploadURLResp.upload_url ||
      optFalsy env.uploadURLResp.file_id then
    .error (orDefault env.uploadURLResp.error "Failed to get upload URL")
  else
    match env.putResult with
    | .error e => .error e
    | .ok _ =>
      if !env.completeResp.ok then
        .error (orDefault env.completeResp.error "Failed to complete upload")
      else .ok ()

/-- Observable outcome of `sendSlackNotification` past the message post:
whether the primary message stays delivered, whether the upload completed,
and the logged upload error if any. -/
structure NotificationOutcome where
  messageDelivered : Bool
  uploadCompleted : Bool
  loggedUploadError : Option String
deriving DecidableEq, Repr

/-- The tail of `sendSlackNotification` after `chat.postMessage` succeeded:
the upload phases run inside try/catch, the catch logs the error and
continues, and nothing retracts the already-posted message. -/
def sendSlackNotification (env : UploadEnv) : NotificationOutcome :=
  match runUploadPhases env with
  | .ok _ => ⟨true, true, none⟩
  | .error e => ⟨true, false, some e⟩

/-! ## Model validation on the specification's concrete scenarios -/

example : isUpdateAvailable "^1.2.0" "1.5.0" = false := by decide
example : isUpdateAvailable "^1.2.0" "2.0.0" = true := by decide
example : getVersionUpdateType "^1.2.0" "2.0.0" = some .major := by decide
example : isUpdateAvailable ">=1.2.0 <1.3.0" "1.2.5" = false := by decide
example : isUpdateAvailable "1.2.3" "1.2.3" = false := by decide

/-! ## Claim theorems -/

/-- C1: for every constraint string and latest-version string whose stripped
base version and latest both parse as semantic versions, `isUpdateAvailable`
returns true if and only if latest is strictly greater than the base version
and latest does not satisfy the original constraint expression. -/
theorem isUpdateAvailable_gt_not_satisfies (c l : String) (b lv : SemVer)
    (hb : parseSemVerStr (baseVersionOf c.data) = some b)
    (hl : parseSemVerStr l.data = some lv) :
    isUpdateAvailable c l = true ↔
      (semverGtB lv b = true ∧ satisfiesL l.data c.data = false) := by
  unfold isUpdateAvailable
  rw [hb, hl]
  simp [Bool.and_eq_true, Bool.not_eq_true']

theorem isUpdateAvailable_gt_not_satisfies_witness :
    isUpdateAvailable "^1.2.0" "2.0.0" = true :=
  (isUpdateAvailable_gt_not_satisfies "^1.2.0" "2.0.0" ⟨1, 2, 0, []⟩ ⟨2, 0, 0, []⟩
    (by decide) (by decide)).mpr ⟨by decide, by decide⟩

/-- C2: for every pair whose base and latest both parse, the severity
tie-break is evaluated in order with the first match winning — major, else
minor, else patch, else none — and exactly one severity is assigned (the
four outcomes are characterised by mutually exclusive, exhaustive
conditions). -/
theorem getVersionUpdateType_tiebreak (c l : String) (cv lv : SemVer)
    (hc : parseSemVerStr (baseVersionOf c.data) = some cv)
    (hl : parseSemVerStr l.data = some lv) :
    (getVersionUpdateType c l = some .major ↔ cv.major < lv.major) ∧
    (getVersionUpdateType c l = some .minor ↔
      (¬cv.major < lv.major ∧ cv.minor < lv.minor)) ∧
    (getVersionUpdateType c l = some .patch ↔
      (¬cv.major < lv.major ∧ ¬cv.minor < lv.minor ∧ cv.patch < lv.patch)) ∧
    (getVersionUpdateType c l = none ↔
      (¬cv.major < lv.major ∧ ¬cv.minor < lv.minor ∧ ¬cv.patch < lv.patch)) := by
  unfold getVersionUpdateType
  rw [hc, hl]
  dsimp only
  split_ifs with h1 h2 h3 <;> simp_all

theorem getVersionUpdateType_tiebreak_witness :
    getVersionUpdateType "^1.2.0" "2.0.0" = some .major :=
  ((getVersionUpdateType_tiebreak "^1.2.0" "2.0.0" ⟨1, 2, 0, []⟩ ⟨2, 0, 0, []⟩
    (by decide) (by decide)).1).mpr (by decide)

/-- C3: the classification step is total — both functions are Lean
functions, returning a value on every pair of strings — and on any parse
failure of either side the result is no update and no severity. -/
theorem classifier_total_parse_failure (c l : String)
    (h : parseSemVerStr (baseVersionOf c.data) = none ∨
         parseSemVerStr l.data = none) :
    isUpdateAvailable c l = false ∧ getVersionUpdateType c l = none := by
  rcases h with h | h
  · cases h2 : parseSemVerStr l.data <;>
      simp [isUpdateAvailable, getVersionUpdateType, h, h2]
  · cases h2 : parseSemVerStr (baseVersionOf c.data) <;>
      simp [isUpdateAvailable, getVersionUpdateType, h, h2]

theorem classifier_total_parse_failure_witness :
    isUpdateAvailable "hello" "1.0.0" = false ∧
      getVersionUpdateType "hello" "1.0.0" = none :=
  classifier_total_parse_failure "hello" "1.0.0" (Or.inl (by decide))

/-- C8: every failure in the three-phase upload — a request phase with a
missing file id (or upload URL, or unsuccessful response), a transfer-phase
error, or an unsuccessful completion response — aborts only the upload: the
enclosing handler catches and logs it, the function returns normally, and
the primary notification message posted before the upload block remains
delivered and unaffected. -/
theorem sendSlackNotification_upload_isolated (env : UploadEnv) :
    (sendSlackNotification env).messageDelivered = true ∧
    (∀ e, runUploadPhases env = .error e →
      (sendSlackNotification env).uploadCompleted = false ∧
      (sendSlackNotification env).loggedUploadError = some e) ∧
    (optFalsy env.uploadURLResp.file_id = true →
      runUploadPhases env =
        .error (orDefault env.uploadURLResp.error "Failed to get upload URL")) ∧
    (∀ e, env.uploadURLResp.ok = true →
      optFalsy env.uploadURLResp.upload_url = false →
      optFalsy env.uploadURLResp.file_id = false →
      env.putResult = .error e →
      runUploadPhases env = .error e) ∧
    (env.uploadURLResp.ok = true →
      optFalsy env.uploadURLResp.upload_url = false →
      optFalsy env.uploadURLResp.file_id = false →
      env.putResult = .ok () →
      env.completeResp.ok = false →
      runUploadPhases env =
        .error (orDefault env.completeResp.error "Failed to complete upload")) := by
  refine ⟨?_, ?_, ?_, ?_, ?_⟩
  · cases h : runUploadPhases env <;> simp [sendSlackNotification, h]
  · intro e he; simp [sendSlackNotification, he]
  · intro h; simp [runUploadPhases, h]
  · intro e h1 h2 h3 h4; simp [runUploadPhases, h1, h2, h3, h4]
  · intro h1 h2 h3 h4 h5; simp [runUploadPhases, h1, h2, h3, h4, h5]

theorem sendSlackNotification_upload_isolated_witness :
    (sendSlackNotification ⟨⟨true, some "u", none, none⟩, .ok (), ⟨true, none⟩⟩).messageDelivered = true ∧
    runUploadPhases ⟨⟨true, some "u", none, none⟩, .ok (), ⟨true, none⟩⟩ =
      .error "Failed to get upload URL" ∧
    (sendSlackNotification ⟨⟨true, some "u", none, none⟩, .ok (), ⟨true, none⟩⟩).uploadCompleted = false :=
  ⟨(sendSlackNotification_upload_isolated _).1,
   (sendSlackNotification_upload_isolated
      ⟨⟨true, some "u", none, none⟩, .ok (), ⟨true, none⟩⟩).2.2.1 (by decide),
   ((sendSlackNotification_upload_isolated _).2.1 "Failed to get upload URL"
      ((sendSlackNotification_upload_isolated
        ⟨⟨true, some "u", none, none⟩, .ok (), ⟨true, none⟩⟩).2.2.1 (by decide))).1⟩

/-- C9: for every result rendered into the summary sheet, the overall
status cell is the error marker (`エラー`) when the result's error field is
set; otherwise it is the needs-update marker (`要更新`) exactly when the
runtime divergence flag is set or the count of packages with an available
update is positive, and the up-to-date marker (`最新`) exactly otherwise. -/
theorem summarySheet_overall_status (result : CheckResult) :
    (∀ e, result.error = some e →
      (summaryRowOf result).status = .str "エラー") ∧
    (result.error = none →
      (((summaryRowOf result).status = .str "要更新") ↔
        (result.flutter.updateAvailable = true ∨
          0 < (result.packages.filter fun p => p.updateAvailable).length)) ∧
      (((summaryRowOf result).status = .str "最新") ↔
        (result.flutter.updateAvailable = false ∧
          (result.packages.filter fun p => p.updateAvailable).length = 0))) := by
  constructor
  · intro e he; simp [summaryRowOf, he]
  · intro he
    have key : (0 < (result.packages.filter fun p => p.updateAvailable).length) ↔
        ∃ x ∈ result.packages, x.updateAvailable = true := by
      constructor
      · intro h
        obtain ⟨x, hx⟩ := List.length_pos_iff_exists_mem.mp h
        exact ⟨x, (List.mem_filter.mp hx).1, (List.mem_filter.mp hx).2⟩
      · rintro ⟨x, hx, hu⟩
        exact List.length_pos_iff_exists_mem.mpr ⟨x, List.mem_filter.mpr ⟨hx, hu⟩⟩
    cases hF : result.flutter.updateAvailable <;>
      by_cases hC : 0 < (result.packages.filter fun p => p.updateAvailable).length <;>
      simp [summaryRowOf, he, hF, hC] <;>
      first
        | exact key.mp hC
        | (intro a ha
           cases hu : a.updateAvailable
           · rfl
           · exact absurd (key.mpr ⟨a, ha, hu⟩) hC)

theorem summarySheet_overall_status_witness :
    (summaryRowOf ⟨⟨"a", none, "u"⟩, ⟨"1.0.0", "1.0.0", false⟩, [], some "boom"⟩).status =
      .str "エラー" ∧
    (summaryRowOf ⟨⟨"a", none, "u"⟩, ⟨"1.0.0", "2.0.0", true⟩, [], none⟩).status =
      .str "要更新" ∧
    (summaryRowOf ⟨⟨"a", none, "u"⟩, ⟨"1.0.0", "1.0.0", false⟩, [], none⟩).status =
      .str "最新" :=
  ⟨(summarySheet_overall_status _).1 "boom" rfl,
   ((summarySheet_overall_status _).2 rfl).1.mpr (Or.inl rfl),
   ((summarySheet_overall_status _).2 rfl).2.mpr ⟨rfl, rfl⟩⟩

/-- C10: for a repository whose manifest fetch succeeds and parses, the
runtime divergence flag is exact string inequality between the pin in use
and the latest runtime version — not a semantic-version comparison — so any
pin differing as a string from the latest release (including a newer one)
is reported as an available update. -/
theorem checkRepository_flutter_flag_string_inequality
    (repository : Repository) (latestFlutter content : String)
    (parseYaml : String → Option Pubspec)
    (resolve : String → Except String String) (p : Pubspec)
    (hp : parseYaml content = some p) :
    (checkRepository repository latestFlutter (.ok content) parseYaml
        resolve).flutter.updateAvailable = true ↔
      (checkRepository repository latestFlutter (.ok content) parseYaml
        resolve).flutter.current ≠ latestFlutter := by
  simp [checkRepository, hp]

theorem checkRepository_flutter_flag_string_inequality_witness :
    (checkRepository ⟨"app", none, "https://github.com/o/r"⟩ "3.24.0"
      (.ok "environment:\n  flutter: 3.30.0\n") (fun _ => some ⟨none, none⟩)
      (fun _ => .error "off")).flutter.updateAvailable = true :=
  (checkRepository_flutter_flag_string_inequality
    ⟨"app", none, "https://github.com/o/r"⟩ "3.24.0"
    "environment:\n  flutter: 3.30.0\n" (fun _ => some ⟨none, none⟩)
    (fun _ => .error "off") ⟨none, none⟩ rfl).mpr (by decide)

/-- C6 counterexample: a successfully fetched manifest that YAML-parses to
null (here, empty content) is fatal — `checkRepository` returns a result
with the error field set, contradicting the claim that it produces a
`CheckResult` without error set. -/
theorem checkRepository_null_parse_counterexample :
    (checkRepository ⟨"app", none, "https://github.com/o/r"⟩ "3.24.0" (.ok "")
        (fun _ => none) (fun _ => .error "down")).error =
      some "Failed to parse pubspec.yaml: result is null" := rfl

/-- C6 (amended): for a repository whose manifest fetch succeeds, a manifest
YAML-parsing to null (empty or unparsable) IS fatal — the check returns the
error-carrying result with the parse-failure message, runtime current
`unknown` and no packages; only a manifest that parses to a non-null object
while yielding no extractable runtime pin is non-fatal, with the runtime pin
falling back to the globally resolved latest runtime version (so runtime
`updateAvailable = false`) and a possibly empty dependency list. -/
theorem checkRepository_parse_fallback :
    (∀ (repository : Repository) (latestFlutter content : String)
        (parseYaml : String → Option Pubspec)
        (resolve : String → Except String String),
      parseYaml content = none →
      checkRepository repository latestFlutter (.ok content) parseYaml resolve =
        ⟨repository, ⟨"unknown", latestFlutter, false⟩, [],
          some "Failed to parse pubspec.yaml: result is null"⟩) ∧
    (∀ (repository : Repository) (latestFlutter content : String)
        (parseYaml : String → Option Pubspec)
        (resolve : String → Except String String) (p : Pubspec),
      parseYaml content = some p →
      getFlutterVersionFromPubspec content = none →
      (checkRepository repository latestFlutter (.ok content) parseYaml
          resolve).error = none ∧
      (checkRepository repository latestFlutter (.ok content) parseYaml
          resolve).flutter = ⟨latestFlutter, latestFlutter, false⟩) := by
  constructor
  · intro repository latestFlutter content parseYaml resolve hp
    simp [checkRepository, hp]
  · intro repository latestFlutter content parseYaml resolve p hp hv
    simp [checkRepository, hp, hv]

theorem checkRepository_parse_fallback_witness :
    checkRepository ⟨"app", none, "https://github.com/o/r"⟩ "3.24.0"
        (.ok "not: yaml: at: all") (fun _ => none) (fun _ => .error "down") =
      ⟨⟨"app", none, "https://github.com/o/r"⟩, ⟨"unknown", "3.24.0", false⟩, [],
        some "Failed to parse pubspec.yaml: result is null"⟩ ∧
    (checkRepository ⟨"app", none, "https://github.com/o/r"⟩ "3.24.0"
        (.ok "name: app\n") (fun _ => some ⟨none, none⟩)
        (fun _ => .error "down")).error = none ∧
    (checkRepository ⟨"app", none, "https://github.com/o/r"⟩ "3.24.0"
        (.ok "name: app\n") (fun _ => some ⟨none, none⟩)
        (fun _ => .error "down")).flutter = ⟨"3.24.0", "3.24.0", false⟩ :=
  ⟨checkRepository_parse_fallback.1 ⟨"app", none, "https://github.com/o/r"⟩
      "3.24.0" "not: yaml: at: all" (fun _ => none) (fun _ => .error "down") rfl,
   (checkRepository_parse_fallback.2 ⟨"app", none, "https://github.com/o/r"⟩
      "3.24.0" "name: app\n" (fun _ => some ⟨none, none⟩)
      (fun _ => .error "down") ⟨none, none⟩ rfl (by decide)).1,
   (checkRepository_parse_fallback.2 ⟨"app", none, "https://github.com/o/r"⟩
      "3.24.0" "name: app\n" (fun _ => some ⟨none, none⟩)
      (fun _ => .error "down") ⟨none, none⟩ rfl (by decide)).2⟩

/-- A skipped declaration is exactly one the resolving loop drops. -/
theorem processDep_none_iff (resolve : String → Except String String)
    (dep : Dep) : processDep resolve dep = none ↔ isSkippedDep dep = true := by
  unfold processDep isSkippedDep
  split_ifs with h1 h2
  · simp [h1]
  · simp [h1, h2]
  · cases hr : resolve dep.name <;> simp [h1, h2, hr]

/-- Every non-skipped declaration yields exactly one package entry. -/
theorem length_filterMap_processDep (resolve : String → Except String String)
    (l : List Dep) :
    (l.filterMap (processDep resolve)).length =
      (l.filter fun d => !isSkippedDep d).length := by
  induction l with
  | nil => rfl
  | cons d t ih =>
    by_cases h : isSkippedDep d
    · have hn : processDep resolve d = none := (processDep_none_iff resolve d).mpr h
      simp [List.filterMap_cons, List.filter_cons, hn, h, ih]
    · have h' : isSkippedDep d = false := by simpa using h
      have hne : processDep resolve d ≠ none := fun hn =>
        h ((processDep_none_iff resolve d).mp hn)
      obtain ⟨pi, hpi⟩ := Option.ne_none_iff_exists'.mp hne
      simp [List.filterMap_cons, List.filter_cons, hpi, h', ih]

/-- C7: for a fetched and parsed manifest, a registry resolution failure for
one dependency is caught locally: the repository's error field stays unset,
every non-skipped declaration still produces exactly one package entry (so
no failure aborts the remaining resolutions), and each failing declaration
appears in the result as `{latest: "N/A", updateAvailable: false}`. -/
theorem checkRepository_resolution_failure_local
    (repository : Repository) (latestFlutter content : String)
    (parseYaml : String → Option Pubspec)
    (resolve : String → Except String String) (p : Pubspec)
    (hp : parseYaml content = some p) :
    (checkRepository repository latestFlutter (.ok content) parseYaml
        resolve).error = none ∧
    (checkRepository repository latestFlutter (.ok content) parseYaml
        resolve).packages.length =
      ((extractDependencies (some p) true).filter
        fun d => !isSkippedDep d).length ∧
    (∀ d ∈ extractDependencies (some p) true, isSkippedDep d = false →
      ∀ e, resolve d.name = .error e →
        (⟨d.name, d.version, "N/A", false⟩ : PackageInfo) ∈
          (checkRepository repository latestFlutter (.ok content) parseYaml
            resolve).packages) := by
  refine ⟨?_, ?_, ?_⟩
  · simp [checkRepository, hp]
  · simp only [checkRepository, hp]
    exact length_filterMap_processDep resolve _
  · intro d hd hskip e he
    simp only [checkRepository, hp]
    refine List.mem_filterMap.mpr ⟨d, hd, ?_⟩
    unfold processDep
    rw [isSkippedDep] at hskip
    rcases Bool.or_eq_false_iff.mp hskip with ⟨hs1, hs2⟩
    rw [if_neg (by simp [hs1]), if_neg (by simp [hs2]), he]

theorem checkRepository_resolution_failure_local_witness :
    (checkRepository ⟨"app", none, "https://github.com/o/r"⟩ "3.24.0"
        (.ok "name: app\n")
        (fun _ => some ⟨some [("http", .str "^1.0.0"), ("bad", .str "^2.0.0")], none⟩)
        (fun n => if n = "bad" then .error "HTTP 404" else .ok "1.2.0")).error =
      none ∧
    (⟨"bad", "^2.0.0", "N/A", false⟩ : PackageInfo) ∈
      (checkRepository ⟨"app", none, "https://github.com/o/r"⟩ "3.24.0"
        (.ok "name: app\n")
        (fun _ => some ⟨some [("http", .str "^1.0.0"), ("bad", .str "^2.0.0")], none⟩)
        (fun n => if n = "bad" then .error "HTTP 404" else .ok "1.2.0")).packages ∧
    (checkRepository ⟨"app", none, "https://github.com/o/r"⟩ "3.24.0"
        (.ok "name: app\n")
        (fun _ => some ⟨some [("http", .str "^1.0.0"), ("bad", .str "^2.0.0")], none⟩)
        (fun n => if n = "bad" then .error "HTTP 404" else .ok "1.2.0")).packages.length = 2 :=
  ⟨(checkRepository_resolution_failure_local ⟨"app", none, "https://github.com/o/r"⟩
      "3.24.0" "name: app\n" _ _ ⟨some [("http", .str "^1.0.0"), ("bad", .str "^2.0.0")], none⟩ rfl).1,
   (checkRepository_resolution_failure_local ⟨"app", none, "https://github.com/o/r"⟩
      "3.24.0" "name: app\n" _ _ ⟨some [("http", .str "^1.0.0"), ("bad", .str "^2.0.0")], none⟩ rfl).2.2
      ⟨"bad", "^2.0.0"⟩ (by decide) (by decide) "HTTP 404" rfl,
   ((checkRepository_resolution_failure_local ⟨"app", none, "https://github.com/o/r"⟩
      "3.24.0" "name: app\n" _ _ ⟨some [("http", .str "^1.0.0"), ("bad", .str "^2.0.0")], none⟩ rfl).2.1).trans
      (by decide)⟩

/-- C5 counterexample: a package named in both the primary and the
development dependency map yields two declarations — the extracted name
sequence is not duplicate-free. -/
theorem extractDependencies_duplicate_counterexample :
    (extractDependencies
        (some ⟨some [("http", .str "^1.0.0")], some [("http", .str "^1.0.0")]⟩)
        true).map Dep.name = ["http", "http"] ∧
    ¬ ((extractDependencies
        (some ⟨some [("http", .str "^1.0.0")], some [("http", .str "^1.0.0")]⟩)
        true).map Dep.name).Nodup := by
  constructor
  · rfl
  · decide

/-- The names extracted from one map form a sublist of that map's keys. -/
theorem extractFrom_names_sublist (es : List (String × DepSpec)) :
    ((extractFrom es).map Dep.name).Sublist (es.map Prod.fst) := by
  induction es with
  | nil => simp [extractFrom]
  | cons e t ih =>
    rw [extractFrom, List.filterMap_cons]
    by_cases h : e.1 = "flutter" ∨ e.1 = "flutter_test"
    · rw [if_pos h, List.map_cons]
      exact (ih).cons e.1
    · rw [if_neg h, List.map_cons, List.map_cons]
      exact (ih).cons₂ e.1

/-- C5 (amended): names are unique within each source map (JavaScript
object keys), but the two maps are concatenated without deduplication, so
the extracted sequence is duplicate-free exactly under the additional
assumption that no package name occurs in both maps — under that
disjointness (vacuous when the development map is unused) the extraction
yields pairwise-distinct names. -/
theorem extractDependencies_nodup_of_disjoint (p : Pubspec)
    (includeDevDeps : Bool)
    (h1 : ((p.dependencies.getD []).map Prod.fst).Nodup)
    (h2 : ((p.dev_dependencies.getD []).map Prod.fst).Nodup)
    (h3 : ∀ n, n ∈ (p.dependencies.getD []).map Prod.fst →
      n ∉ (p.dev_dependencies.getD []).map Prod.fst) :
    ((extractDependencies (some p) includeDevDeps).map Dep.name).Nodup := by
  obtain ⟨d, v⟩ := p
  rw [extractDependencies, List.map_append, List.nodup_append]
  refine ⟨?_, ?_, ?_⟩
  · cases d with
    | none => simp
    | some es =>
      simp only [Option.getD] at h1
      exact (extractFrom_names_sublist es).nodup h1
  · cases includeDevDeps with
    | false => simp
    | true =>
      cases v with
      | none => simp
      | some es =>
        simp only [Option.getD] at h2
        exact (extractFrom_names_sublist es).nodup h2
  · intro n hn hn2
    cases d with
    | none => simp at hn
    | some es =>
      cases includeDevDeps with
      | false => simp at hn2
      | true =>
        cases v with
        | none => simp at hn2
        | some es2 =>
          exact h3 n ((extractFrom_names_sublist es).subset hn)
            ((extractFrom_names_sublist es2).subset hn2)

theorem extractDependencies_nodup_of_disjoint_witness :
    ((extractDependencies
        (some ⟨some [("http", .str "^1.0.0")], some [("lints", .str "^2.0.0")]⟩)
        true).map Dep.name).Nodup :=
  extractDependencies_nodup_of_disjoint
    ⟨some [("http", .str "^1.0.0")], some [("lints", .str "^2.0.0")]⟩ true
    (by decide) (by decide) (by decide)

/-- C4 counterexample: in a manifest whose environment block lists the SDK
constraint before the runtime key, the nested `sdk:` line ends the scope and
the extractor returns null — contradicting the claim that keys nested
inside the environment block do not end the scope before the runtime key is
reached (which would have yielded `3.16.0` here). -/
theorem scanPubspec_nested_key_counterexample :
    getFlutterVersionFromPubspec
        "environment:\n  sdk: \">=3.0.0 <4.0.0\"\n  flutter: 3.16.0\n" = none := by
  decide

/-- A head match of the pattern is in particular an occurrence. -/
theorem containsSubL_of_startsWithL (x k : List Char)
    (h : startsWithL x k = true) : containsSubL x k = true := by
  cases x with
  | nil =>
    cases k with
    | nil => rfl
    | cons b bs => simp [startsWithL] at h
  | cons a t => simp [containsSubL, h]

/-- An occurrence survives restoring characters dropped from the front. -/
theorem containsSubL_of_dropWhile (p : Char → Bool) (l k : List Char)
    (h : containsSubL (l.dropWhile p) k = true) : containsSubL l k = true := by
  induction l with
  | nil => simpa using h
  | cons a t ih =>
    by_cases hp : p a
    · rw [List.dropWhile_cons_of_pos hp] at h
      simp [containsSubL, ih h]
    · rwa [List.dropWhile_cons_of_neg hp] at h

/-- A head match survives appending on the right. -/
theorem startsWithL_append (y z k : List Char) (h : startsWithL y k = true) :
    startsWithL (y ++ z) k = true := by
  induction y generalizing k with
  | nil =>
    cases k with
    | nil => cases z with
      | nil => rfl
      | cons c t => rfl
    | cons b bs => simp [startsWithL] at h
  | cons a t ih =>
    cases k with
    | nil => rfl
    | cons b bs =>
      rw [List.cons_append]
      rw [startsWithL] at h ⊢
      simp only [Bool.and_eq_true] at h
      obtain ⟨hab, ht⟩ := h
      rw [hab, ih bs ht]
      rfl

/-- The empty pattern occurs in every string. -/
theorem containsSubL_nil (z : List Char) : containsSubL z [] = true := by
  cases z with
  | nil => rfl
  | cons a t => simp [containsSubL, startsWithL]

/-- An occurrence survives appending on the right. -/
theorem containsSubL_append_of_left (y z k : List Char)
    (h : containsSubL y k = true) : containsSubL (y ++ z) k = true := by
  induction y with
  | nil =>
    have hk : k = [] := by
      cases k with
      | nil => rfl
      | cons b bs => simp [containsSubL] at h
    subst hk
    exact containsSubL_nil ([] ++ z)
  | cons a t ih =>
    rw [List.cons_append]
    rw [containsSubL] at h ⊢
    simp only [Bool.or_eq_true] at h
    rcases h with h' | h'
    · have hsw := startsWithL_append (a :: t) z k h'
      rw [List.cons_append] at hsw
      rw [hsw]
      rfl
    · rw [ih h', Bool.or_true]

/-- Trimming on the right only removes a suffix. -/
theorem jsTrimRight_append (x : List Char) :
    jsTrimRight x ++ (x.reverse.takeWhile isJsWS).reverse = x := by
  unfold jsTrimRight
  rw [← List.reverse_append, List.takeWhile_append_dropWhile, List.reverse_reverse]

/-- A pattern at the head of the trimmed line occurs in the raw line: the
JavaScript `line.includes` test cannot be false when the trimmed line starts
with the pattern. -/
theorem containsSubL_of_startsWith_jsTrim (l k : List Char)
    (h : startsWithL (jsTrim l) k = true) : containsSubL l k = true := by
  have h1 : containsSubL (jsTrim l) k = true := containsSubL_of_startsWithL _ _ h
  have h2 : containsSubL (jsTrimLeft l) k = true := by
    have h3 := containsSubL_append_of_left (jsTrimRight (jsTrimLeft l))
      (((jsTrimLeft l).reverse.takeWhile isJsWS).reverse) k h1
    rwa [jsTrimRight_append] at h3
  exact containsSubL_of_dropWhile isJsWS l k h2

/-- C4 (amended): the scan enters environment scope only on a line trimming
to exactly the block header (a manifest with no such line extracts
nothing); in scope, a line whose trimmed form starts with the runtime key
and carries a numeric triple yields that triple; and the scope ends at the
first in-scope line matching `optional whitespace, word characters, colon`
that does not contain the runtime-key token — at any indentation, so a
nested key such as the SDK constraint line, when it precedes the runtime
key, ends the scope (only another header line or a runtime-key line
escapes this rule). -/
theorem scanPubspec_scope_rules :
    (∀ lines : List (List Char),
      (∀ l ∈ lines, jsTrim l ≠ "environment:".data) →
      scanPubspec lines false = none) ∧
    (∀ (l : List Char) (rest : List (List Char)) (v : List Char),
      startsWithL (jsTrim l) "flutter:".data = true →
      findTripleL (jsTrim ((jsTrim l).drop 8)) = some v →
      scanPubspec (l :: rest) true = some v) ∧
    (∀ (l : List Char) (rest : List (List Char)),
      jsTrim l ≠ "environment:".data →
      lineKeyTest l = true →
      containsSubL l "flutter:".data = false →
      scanPubspec (l :: rest) true = none) := by
  refine ⟨?_, ?_, ?_⟩
  · intro lines h
    induction lines with
    | nil => rfl
    | cons l rest ih =>
      have hl : jsTrim l ≠ "environment:".data := h l (List.mem_cons_self l rest)
      rw [scanPubspec, if_neg hl]
      simp only [Bool.false_and, Bool.false_eq_true, if_false]
      exact ih fun x hx => h x (List.mem_cons_of_mem l hx)
  · intro l rest v hs ht
    have hne : jsTrim l ≠ "environment:".data := by
      intro he
      rw [he] at hs
      exact absurd hs (by decide)
    rw [scanPubspec, if_neg hne]
    simp only [Bool.true_and, hs, if_true, ht]
  · intro l rest hne hk hf
    have hs : startsWithL (jsTrim l) "flutter:".data = false := by
      cases h : startsWithL (jsTrim l) "flutter:".data
      · rfl
      · exact absurd (containsSubL_of_startsWith_jsTrim l _ h) (by simp [hf])
    rw [scanPubspec, if_neg hne]
    simp only [Bool.true_and, hs, Bool.false_eq_true, if_false, hk, hf,
      Bool.not_false, Bool.and_true, if_true]

theorem scanPubspec_scope_rules_witness :
    scanPubspec ["name: app".data, "  flutter: 3.16.0".data] false = none ∧
    scanPubspec ["  flutter: 3.16.0".data] true = some "3.16.0".data ∧
    scanPubspec ["  sdk: >=3.0.0".data, "  flutter: 3.16.0".data] true = none :=
  ⟨scanPubspec_scope_rules.1 ["name: app".data, "  flutter: 3.16.0".data] (by decide),
   scanPubspec_scope_rules.2.1 "  flutter: 3.16.0".data [] "3.16.0".data
     (by decide) (by decide),
   scanPubspec_scope_rules.2.2 "  sdk: >=3.0.0".data ["  flutter: 3.16.0".data]
     (by decide) (by decide) (by decide)⟩

end VTCheck
